import Mathlib

/- Verification of the query-construction layer, loader, cache layout, and
dashboard metric computations of the Olist analytics dashboard repository.
The definitions below are shallow embeddings of the corresponding Python
functions; SQL text is transcribed verbatim from the f-strings in
`streamlit_dashboard/utils/data_queries.py`. -/

set_option maxRecDepth 100000

/-! ## String utilities (substring scanning, kernel-reduction friendly) -/

/-- Does the pattern `p` occur at the head of `s`? Written with `List.rec`
directly so that kernel reduction stays cheap. -/
def startsL (p s : List Char) : Bool :=
  List.rec (motive := fun _ => List Char → Bool)
    (fun _ => true)
    (fun a _ ih t =>
      match t with
      | [] => false
      | b :: bs => a == b && ih bs)
    p s

/-- Does the pattern `p` occur anywhere inside `s`? -/
def hasSubL (p s : List Char) : Bool :=
  List.rec (motive := fun _ => Bool)
    (startsL p [])
    (fun c rest ih => startsL p (c :: rest) || ih)
    s

/-- Substring test on strings: `containsSub s pat` holds when `pat` occurs
contiguously inside `s`. -/
def containsSub (s pat : String) : Bool := hasSubL pat.data s.data

/-! ## Filter semantics of the query layer -/

/-- Embedding of the Python filter test used by every query function:
`year_filter and year_filter != "All Years"`.  A `None` argument and the
empty string are falsy, so only a non-empty string different from the
sentinel counts as a concrete filter. -/
def isConcrete (filt : Option String) (sentinel : String) : Bool :=
  match filt with
  | none => false
  | some s => !(s == "") && !(s == sentinel)

/-! ## Query construction, one block per function of `data_queries.py`.
For each function the joins / conditions accumulated by the Python code are
embedded as their own definitions and the final SQL text is assembled from
them exactly as the source f-string does. -/

def get_monthly_sales_trends_year_condition (year_filter : Option String) : String :=
  if isConcrete year_filter "All Years" then "AND d.year = " ++ year_filter.getD "" else ""

def get_monthly_sales_trends_region_condition (region_filter : Option String) : String :=
  if isConcrete region_filter "All Regions" then "AND c.customer_region = '" ++ region_filter.getD "" ++ "'" else ""

/-- The two optional WHERE fragments of `get_monthly_sales_trends`
(its predicate set beyond the fixed `1=1`). -/
def get_monthly_sales_trends_predicates (year_filter region_filter : Option String) : List String :=
  [get_monthly_sales_trends_year_condition year_filter,
   get_monthly_sales_trends_region_condition region_filter]

/-- Fixed JOIN clauses inlined in the SQL text of `get_monthly_sales_trends`. -/
def get_monthly_sales_trends_join_clauses : List String :=
  ["JOIN `olist_marts.dim_date` d ON f.date_key = d.date_key",
   "JOIN `olist_marts.dim_customers` c ON f.customer_key = c.customer_key"]

def get_top_products_categories_joins (year_filter region_filter : Option String) : List String :=
  let joins := ["JOIN `olist_marts.dim_products` p ON f.product_key = p.product_key"]
  let joins := if isConcrete year_filter "All Years" then
      joins ++ ["JOIN `olist_marts.dim_date` d ON f.date_key = d.date_key"] else joins
  let joins := if isConcrete region_filter "All Regions" then
      joins ++ ["JOIN `olist_marts.dim_customers` c ON f.customer_key = c.customer_key"] else joins
  joins

def get_top_products_categories_year_condition (year_filter : Option String) : String :=
  if isConcrete year_filter "All Years" then "AND d.year = " ++ year_filter.getD "" else ""

def get_top_products_categories_region_condition (region_filter : Option String) : String :=
  if isConcrete region_filter "All Regions" then "AND c.customer_region = '" ++ region_filter.getD "" ++ "'" else ""

/-- The two optional WHERE fragments of `get_top_products_categories`. -/
def get_top_products_categories_predicates (year_filter region_filter : Option String) : List String :=
  [get_top_products_categories_year_condition year_filter,
   get_top_products_categories_region_condition region_filter]

def get_sales_by_region_joins (year_filter : Option String) : List String :=
  let joins := ["JOIN `olist_marts.dim_customers` c ON f.customer_key = c.customer_key",
                "JOIN `olist_marts.dim_sellers` s ON f.seller_key = s.seller_key"]
  if isConcrete year_filter "All Years" then
    joins ++ ["JOIN `olist_marts.dim_date` d ON f.date_key = d.date_key"] else joins

def get_sales_by_region_year_condition (year_filter : Option String) : String :=
  if isConcrete year_filter "All Years" then "AND d.year = " ++ year_filter.getD "" else ""

/-- The optional WHERE fragment of `get_sales_by_region` (no region parameter). -/
def get_sales_by_region_predicates (year_filter : Option String) : List String :=
  [get_sales_by_region_year_condition year_filter]

def get_sales_by_state_conditions (year_filter region_filter : Option String) : List String :=
  let conditions := ["c.customer_state IS NOT NULL"]
  let conditions := if isConcrete year_filter "All Years" then
      conditions ++ ["d.year = " ++ year_filter.getD ""] else conditions
  let conditions := if isConcrete region_filter "All Regions" then
      conditions ++ ["c.customer_region = '" ++ region_filter.getD "" ++ "'"] else conditions
  conditions

def get_sales_by_state_joins (year_filter region_filter : Option String) : List String :=
  let joins := ["JOIN `olist_marts.dim_customers` c ON f.customer_key = c.customer_key"]
  if isConcrete year_filter "All Years" then
    joins ++ ["JOIN `olist_marts.dim_date` d ON f.date_key = d.date_key"] else joins

def get_sales_by_state_where_clause (year_filter region_filter : Option String) : String :=
  "WHERE " ++ String.intercalate " AND " (get_sales_by_state_conditions year_filter region_filter)

def get_customer_seller_flow_joins (year_filter : Option String) : List String :=
  let joins := ["JOIN `olist_marts.dim_customers` c ON f.customer_key = c.customer_key",
                "JOIN `olist_marts.dim_sellers` s ON f.seller_key = s.seller_key"]
  if isConcrete year_filter "All Years" then
    joins ++ ["JOIN `olist_marts.dim_date` d ON f.date_key = d.date_key"] else joins

def get_customer_seller_flow_year_condition (year_filter : Option String) : String :=
  if isConcrete year_filter "All Years" then "AND d.year = " ++ year_filter.getD "" else ""

/-- The optional WHERE fragment of `get_customer_seller_flow` (no region parameter). -/
def get_customer_seller_flow_predicates (year_filter : Option String) : List String :=
  [get_customer_seller_flow_year_condition year_filter]

def get_customer_behavior_conditions (year_filter region_filter : Option String) : List String :=
  let conditions : List String := []
  let conditions := if isConcrete year_filter "All Years" then
      conditions ++ ["d.year = " ++ year_filter.getD ""] else conditions
  let conditions := if isConcrete region_filter "All Regions" then
      conditions ++ ["c.customer_region = '" ++ region_filter.getD "" ++ "'"] else conditions
  conditions

def get_customer_behavior_where_clause (year_filter region_filter : Option String) : String :=
  let conditions := get_customer_behavior_conditions year_filter region_filter
  if conditions.isEmpty then "" else "WHERE " ++ String.intercalate " AND " conditions

/-- Fixed JOIN clauses inlined in the SQL text of `get_customer_behavior`. -/
def get_customer_behavior_join_clauses : List String :=
  ["JOIN `olist_marts.dim_customers` c ON f.customer_key = c.customer_key",
   "JOIN `olist_marts.dim_date` d ON f.date_key = d.date_key"]

def get_customer_segmentation_conditions (year_filter region_filter : Option String) : List String :=
  let conditions : List String := []
  let conditions := if isConcrete year_filter "All Years" then
      conditions ++ ["d.year = " ++ year_filter.getD ""] else conditions
  let conditions := if isConcrete region_filter "All Regions" then
      conditions ++ ["c.customer_region = '" ++ region_filter.getD "" ++ "'"] else conditions
  conditions

def get_customer_segmentation_where_clause (year_filter region_filter : Option String) : String :=
  let conditions := get_customer_segmentation_conditions year_filter region_filter
  if conditions.isEmpty then "" else "WHERE " ++ String.intercalate " AND " conditions

/-- Fixed JOIN clauses inlined in the SQL text of `get_customer_segmentation`. -/
def get_customer_segmentation_join_clauses : List String :=
  ["JOIN `olist_marts.dim_customers` c ON f.customer_key = c.customer_key",
   "JOIN `olist_marts.dim_date` d ON f.date_key = d.date_key"]

def get_customer_frequency_analysis_conditions (year_filter region_filter : Option String) : List String :=
  let conditions : List String := []
  let conditions := if isConcrete year_filter "All Years" then
      conditions ++ ["d.year = " ++ year_filter.getD ""] else conditions
  let conditions := if isConcrete region_filter "All Regions" then
      conditions ++ ["c.customer_region = '" ++ region_filter.getD "" ++ "'"] else conditions
  conditions

def get_customer_frequency_analysis_where_clause (year_filter region_filter : Option String) : String :=
  let conditions := get_customer_frequency_analysis_conditions year_filter region_filter
  if conditions.isEmpty then "" else "WHERE " ++ String.intercalate " AND " conditions

/-- Fixed JOIN clauses inlined in the SQL text of `get_customer_frequency_analysis`. -/
def get_customer_frequency_analysis_join_clauses : List String :=
  ["JOIN `olist_marts.dim_customers` c ON f.customer_key = c.customer_key",
   "JOIN `olist_marts.dim_date` d ON f.date_key = d.date_key"]

def get_payment_analysis_conditions (year_filter region_filter : Option String) : List String :=
  let conditions : List String := []
  let conditions := if isConcrete year_filter "All Years" then
      conditions ++ ["d.year = " ++ year_filter.getD ""] else conditions
  let conditions := if isConcrete region_filter "All Regions" then
      conditions ++ ["c.customer_region = '" ++ region_filter.getD "" ++ "'"] else conditions
  conditions

def get_payment_analysis_joins (year_filter region_filter : Option String) : List String :=
  let joins := ["JOIN `olist_marts.dim_payments` p ON f.payment_key = p.payment_key"]
  let joins := if isConcrete year_filter "All Years" then
      joins ++ ["JOIN `olist_marts.dim_date` d ON f.date_key = d.date_key"] else joins
  let joins := if isConcrete region_filter "All Regions" then
      joins ++ ["JOIN `olist_marts.dim_customers` c ON f.customer_key = c.customer_key"] else joins
  joins

def get_payment_analysis_where_clause (year_filter region_filter : Option String) : String :=
  let conditions := get_payment_analysis_conditions year_filter region_filter
  if conditions.isEmpty then "" else "WHERE " ++ String.intercalate " AND " conditions

def get_installment_analysis_conditions (year_filter region_filter : Option String) : List String :=
  let conditions : List String := []
  let conditions := if isConcrete year_filter "All Years" then
      conditions ++ ["d.year = " ++ year_filter.getD ""] else conditions
  let conditions := if isConcrete region_filter "All Regions" then
      conditions ++ ["c.customer_region = '" ++ region_filter.getD "" ++ "'"] else conditions
  conditions

def get_installment_analysis_joins (year_filter region_filter : Option String) : List String :=
  let joins := ["JOIN `olist_marts.dim_payments` p ON f.payment_key = p.payment_key"]
  let joins := if isConcrete year_filter "All Years" then
      joins ++ ["JOIN `olist_marts.dim_date` d ON f.date_key = d.date_key"] else joins
  let joins := if isConcrete region_filter "All Regions" then
      joins ++ ["JOIN `olist_marts.dim_customers` c ON f.customer_key = c.customer_key"] else joins
  joins

def get_installment_analysis_where_clause (year_filter region_filter : Option String) : String :=
  let conditions := get_installment_analysis_conditions year_filter region_filter
  if conditions.isEmpty then "" else "WHERE " ++ String.intercalate " AND " conditions

def get_seller_performance_conditions (year_filter region_filter : Option String) : List String :=
  let conditions := ["s.seller_region IS NOT NULL"]
  let conditions := if isConcrete year_filter "All Years" then
      conditions ++ ["d.year = " ++ year_filter.getD ""] else conditions
  let conditions := if isConcrete region_filter "All Regions" then
      conditions ++ ["s.seller_region = '" ++ region_filter.getD "" ++ "'"] else conditions
  conditions

def get_seller_performance_joins (year_filter region_filter : Option String) : List String :=
  let joins := ["JOIN `olist_marts.dim_sellers` s ON f.seller_key = s.seller_key"]
  if isConcrete year_filter "All Years" then
    joins ++ ["JOIN `olist_marts.dim_date` d ON f.date_key = d.date_key"] else joins

def get_seller_performance_where_clause (year_filter region_filter : Option String) : String :=
  "WHERE " ++ String.intercalate " AND " (get_seller_performance_conditions year_filter region_filter)

def get_top_sellers_conditions (year_filter region_filter : Option String) : List String :=
  let conditions := ["s.seller_region IS NOT NULL"]
  let conditions := if isConcrete year_filter "All Years" then
      conditions ++ ["d.year = " ++ year_filter.getD ""] else conditions
  let conditions := if isConcrete region_filter "All Regions" then
      conditions ++ ["s.seller_region = '" ++ region_filter.getD "" ++ "'"] else conditions
  conditions

def get_top_sellers_joins (year_filter region_filter : Option String) : List String :=
  let joins := ["JOIN `olist_marts.dim_sellers` s ON f.seller_key = s.seller_key"]
  if isConcrete year_filter "All Years" then
    joins ++ ["JOIN `olist_marts.dim_date` d ON f.date_key = d.date_key"] else joins

def get_top_sellers_where_clause (year_filter region_filter : Option String) : String :=
  "WHERE " ++ String.intercalate " AND " (get_top_sellers_conditions year_filter region_filter)

def get_seller_product_diversity_conditions (year_filter region_filter : Option String) : List String :=
  let conditions := ["s.seller_region IS NOT NULL", "p.product_category_english IS NOT NULL"]
  let conditions := if isConcrete year_filter "All Years" then
      conditions ++ ["d.year = " ++ year_filter.getD ""] else conditions
  let conditions := if isConcrete region_filter "All Regions" then
      conditions ++ ["s.seller_region = '" ++ region_filter.getD "" ++ "'"] else conditions
  conditions

def get_seller_product_diversity_joins (year_filter region_filter : Option String) : List String :=
  let joins := ["JOIN `olist_marts.dim_sellers` s ON f.seller_key = s.seller_key",
                "JOIN `olist_marts.dim_products` p ON f.product_key = p.product_key"]
  if isConcrete year_filter "All Years" then
    joins ++ ["JOIN `olist_marts.dim_date` d ON f.date_key = d.date_key"] else joins

def get_seller_product_diversity_where_clause (year_filter region_filter : Option String) : String :=
  "WHERE " ++ String.intercalate " AND " (get_seller_product_diversity_conditions year_filter region_filter)

def get_reviews_sales_correlation_conditions (year_filter region_filter : Option String) : List String :=
  let conditions : List String := []
  let conditions := if isConcrete year_filter "All Years" then
      conditions ++ ["d.year = " ++ year_filter.getD ""] else conditions
  let conditions := if isConcrete region_filter "All Regions" then
      conditions ++ ["c.customer_region = '" ++ region_filter.getD "" ++ "'"] else conditions
  conditions

def get_reviews_sales_correlation_joins (year_filter region_filter : Option String) : List String :=
  let joins := ["LEFT JOIN `olist_marts.dim_reviews` r ON f.review_key = r.review_key"]
  let joins := if isConcrete year_filter "All Years" then
      joins ++ ["JOIN `olist_marts.dim_date` d ON f.date_key = d.date_key"] else joins
  let joins := if isConcrete region_filter "All Regions" then
      joins ++ ["JOIN `olist_marts.dim_customers` c ON f.customer_key = c.customer_key"] else joins
  joins

def get_reviews_sales_correlation_where_clause (year_filter region_filter : Option String) : String :=
  let conditions := get_reviews_sales_correlation_conditions year_filter region_filter
  if conditions.isEmpty then "" else "WHERE " ++ String.intercalate " AND " conditions

def get_review_score_distribution_conditions (year_filter region_filter : Option String) : List String :=
  let conditions : List String := []
  let conditions := if isConcrete year_filter "All Years" then
      conditions ++ ["d.year = " ++ year_filter.getD ""] else conditions
  let conditions := if isConcrete region_filter "All Regions" then
      conditions ++ ["c.customer_region = '" ++ region_filter.getD "" ++ "'"] else conditions
  conditions

def get_review_score_distribution_joins (year_filter region_filter : Option String) : List String :=
  let joins := ["LEFT JOIN `olist_marts.dim_reviews` r ON f.review_key = r.review_key"]
  let joins := if isConcrete year_filter "All Years" then
      joins ++ ["JOIN `olist_marts.dim_date` d ON f.date_key = d.date_key"] else joins
  let joins := if isConcrete region_filter "All Regions" then
      joins ++ ["JOIN `olist_marts.dim_customers` c ON f.customer_key = c.customer_key"] else joins
  joins

def get_review_score_distribution_where_clause (year_filter region_filter : Option String) : String :=
  let conditions := get_review_score_distribution_conditions year_filter region_filter
  if conditions.isEmpty then "" else "WHERE " ++ String.intercalate " AND " conditions

def get_review_timing_analysis_conditions (year_filter region_filter : Option String) : List String :=
  let conditions := ["r.review_key IS NOT NULL"]
  let conditions := if isConcrete year_filter "All Years" then
      conditions ++ ["d.year = " ++ year_filter.getD ""] else conditions
  let conditions := if isConcrete region_filter "All Regions" then
      conditions ++ ["c.customer_region = '" ++ region_filter.getD "" ++ "'"] else conditions
  conditions

def get_review_timing_analysis_joins (year_filter region_filter : Option String) : List String :=
  let joins := ["JOIN `olist_marts.dim_reviews` r ON f.review_key = r.review_key",
                "JOIN `olist_marts.dim_orders` o ON f.order_key = o.order_key"]
  let joins := if isConcrete year_filter "All Years" then
      joins ++ ["JOIN `olist_marts.dim_date` d ON f.date_key = d.date_key"] else joins
  let joins := if isConcrete region_filter "All Regions" then
      joins ++ ["JOIN `olist_marts.dim_customers` c ON f.customer_key = c.customer_key"] else joins
  joins

def get_review_timing_analysis_where_clause (year_filter region_filter : Option String) : String :=
  "WHERE " ++ String.intercalate " AND " (get_review_timing_analysis_conditions year_filter region_filter)

def get_delivery_patterns_conditions (year_filter region_filter : Option String) : List String :=
  let conditions := ["o.days_to_delivery IS NOT NULL"]
  let conditions := if isConcrete year_filter "All Years" then
      conditions ++ ["d.year = " ++ year_filter.getD ""] else conditions
  let conditions := if isConcrete region_filter "All Regions" then
      conditions ++ ["c.customer_region = '" ++ region_filter.getD "" ++ "'"] else conditions
  conditions

def get_delivery_patterns_joins (year_filter region_filter : Option String) : List String :=
  let joins := ["JOIN `olist_marts.dim_orders` o ON f.order_key = o.order_key",
                "JOIN `olist_marts.dim_customers` c ON f.customer_key = c.customer_key"]
  if isConcrete year_filter "All Years" then
    joins ++ ["JOIN `olist_marts.dim_date` d ON f.date_key = d.date_key"] else joins

def get_delivery_patterns_where_clause (year_filter region_filter : Option String) : String :=
  "WHERE " ++ String.intercalate " AND " (get_delivery_patterns_conditions year_filter region_filter)

def get_delivery_time_distribution_conditions (year_filter region_filter : Option String) : List String :=
  let conditions := ["o.days_to_delivery IS NOT NULL"]
  let conditions := if isConcrete year_filter "All Years" then
      conditions ++ ["d.year = " ++ year_filter.getD ""] else conditions
  let conditions := if isConcrete region_filter "All Regions" then
      conditions ++ ["c.customer_region = '" ++ region_filter.getD "" ++ "'"] else conditions
  conditions

def get_delivery_time_distribution_joins (year_filter region_filter : Option String) : List String :=
  let joins := ["JOIN `olist_marts.dim_orders` o ON f.order_key = o.order_key",
                "JOIN `olist_marts.dim_customers` c ON f.customer_key = c.customer_key"]
  if isConcrete year_filter "All Years" then
    joins ++ ["JOIN `olist_marts.dim_date` d ON f.date_key = d.date_key"] else joins

def get_delivery_time_distribution_where_clause (year_filter region_filter : Option String) : String :=
  "WHERE " ++ String.intercalate " AND " (get_delivery_time_distribution_conditions year_filter region_filter)

def get_delivery_efficiency_analysis_conditions (year_filter region_filter : Option String) : List String :=
  let conditions := ["o.days_to_delivery IS NOT NULL"]
  let conditions := if isConcrete year_filter "All Years" then
      conditions ++ ["d.year = " ++ year_filter.getD ""] else conditions
  let conditions := if isConcrete region_filter "All Regions" then
      conditions ++ ["c.customer_region = '" ++ region_filter.getD "" ++ "'"] else conditions
  conditions

def get_delivery_efficiency_analysis_joins (year_filter region_filter : Option String) : List String :=
  let joins := ["JOIN `olist_marts.dim_orders` o ON f.order_key = o.order_key",
                "JOIN `olist_marts.dim_customers` c ON f.customer_key = c.customer_key",
                "JOIN `olist_marts.dim_sellers` s ON f.seller_key = s.seller_key"]
  if isConcrete year_filter "All Years" then
    joins ++ ["JOIN `olist_marts.dim_date` d ON f.date_key = d.date_key"] else joins

def get_delivery_efficiency_analysis_where_clause (year_filter region_filter : Option String) : String :=
  "WHERE " ++ String.intercalate " AND " (get_delivery_efficiency_analysis_conditions year_filter region_filter)
def get_monthly_sales_trends_query (year_filter region_filter : Option String) : String :=
  "
        SELECT 
            FORMAT_DATE('%Y-%m', MIN(d.full_date)) as month_year,
            d.year,
            d.month,
            d.month_name,
            COUNT(DISTINCT f.order_key) as total_orders,
            COUNT(f.order_item_sk) as total_items,
            ROUND(SUM(f.total_item_value), 2) as total_sales,
            ROUND(SUM(f.payment_value), 2) as total_payments,
            ROUND(SUM(f.total_item_value) / COUNT(DISTINCT f.order_key), 2) as avg_order_value,
            ROUND(SUM(f.payment_value) / COUNT(DISTINCT f.order_key), 2) as avg_payment_value
        FROM `olist_marts.fact_sales` f
        JOIN `olist_marts.dim_date` d ON f.date_key = d.date_key
        JOIN `olist_marts.dim_customers` c ON f.customer_key = c.customer_key
        WHERE 1=1 " ++ get_monthly_sales_trends_year_condition year_filter ++ " " ++ get_monthly_sales_trends_region_condition region_filter ++ "
        GROUP BY d.year, d.month, d.month_name
        ORDER BY d.year, d.month
        "

def get_top_products_categories_query (limit : Nat) (year_filter region_filter : Option String) : String :=
  "
        SELECT 
            p.product_category_english as category,
            COUNT(DISTINCT p.product_key) as unique_products,
            COUNT(f.order_item_sk) as items_sold,
            ROUND(SUM(f.total_item_value), 2) as total_revenue,
            ROUND(AVG(f.total_item_value), 2) as avg_item_value,
            ROUND(SUM(f.freight_value), 2) as total_freight,
            ROUND(SUM(f.item_price), 2) as total_item_price
        FROM `olist_marts.fact_sales` f
        " ++ String.intercalate " " (get_top_products_categories_joins year_filter region_filter) ++ "
        WHERE p.product_category_english IS NOT NULL " ++ get_top_products_categories_year_condition year_filter ++ " " ++ get_top_products_categories_region_condition region_filter ++ "
        GROUP BY p.product_category_english
        ORDER BY total_revenue DESC
        LIMIT " ++ toString limit ++ "
        "

def get_sales_by_region_query (year_filter : Option String) : String :=
  "
        SELECT 
            c.customer_region,
            s.seller_region,
            COUNT(DISTINCT f.order_key) as total_orders,
            COUNT(f.order_item_sk) as total_items,
            ROUND(SUM(f.total_item_value), 2) as total_sales,
            ROUND(AVG(f.total_item_value), 2) as avg_order_value,
            COUNT(DISTINCT c.customer_key) as unique_customers,
            COUNT(DISTINCT s.seller_key) as unique_sellers
        FROM `olist_marts.fact_sales` f
        " ++ String.intercalate " " (get_sales_by_region_joins year_filter) ++ "
        WHERE c.customer_region IS NOT NULL AND s.seller_region IS NOT NULL " ++ get_sales_by_region_year_condition year_filter ++ "
        GROUP BY c.customer_region, s.seller_region
        ORDER BY total_sales DESC
        "

def get_sales_by_state_query (year_filter region_filter : Option String) : String :=
  "
        SELECT 
            c.customer_state,
            c.customer_region,
            COUNT(DISTINCT f.order_key) as total_orders,
            COUNT(f.order_item_sk) as total_items,
            ROUND(SUM(f.total_item_value), 2) as total_sales,
            ROUND(AVG(f.total_item_value), 2) as avg_order_value,
            COUNT(DISTINCT c.customer_key) as unique_customers
        FROM `olist_marts.fact_sales` f
        " ++ String.intercalate " " (get_sales_by_state_joins year_filter region_filter) ++ "
        " ++ get_sales_by_state_where_clause year_filter region_filter ++ "
        GROUP BY c.customer_state, c.customer_region
        ORDER BY total_sales DESC
        "

def get_customer_seller_flow_query (year_filter : Option String) : String :=
  "
        SELECT 
            CASE 
                WHEN c.customer_region = s.seller_region THEN 'Same Region'
                ELSE 'Cross Region'
            END as transaction_type,
            c.customer_region,
            s.seller_region,
            COUNT(DISTINCT f.order_key) as total_orders,
            ROUND(SUM(f.total_item_value), 2) as total_sales,
            COUNT(DISTINCT c.customer_key) as unique_customers,
            COUNT(DISTINCT s.seller_key) as unique_sellers
        FROM `olist_marts.fact_sales` f
        " ++ String.intercalate " " (get_customer_seller_flow_joins year_filter) ++ "
        WHERE c.customer_region IS NOT NULL AND s.seller_region IS NOT NULL " ++ get_customer_seller_flow_year_condition year_filter ++ "
        GROUP BY 
            CASE 
                WHEN c.customer_region = s.seller_region THEN 'Same Region'
                ELSE 'Cross Region'
            END,
            c.customer_region, 
            s.seller_region
        ORDER BY total_sales DESC
        "

def get_customer_behavior_query (year_filter region_filter : Option String) : String :=
  "
        WITH order_summary AS (
            -- First, aggregate sales at the ORDER level (not order item level)
            SELECT 
                f.order_key,
                c.customer_key,
                c.customer_region,
                d.full_date,
                SUM(f.total_item_value) as order_total_value,
                COUNT(f.order_item_sk) as items_in_order
            FROM `olist_marts.fact_sales` f
            JOIN `olist_marts.dim_customers` c ON f.customer_key = c.customer_key
            JOIN `olist_marts.dim_date` d ON f.date_key = d.date_key
            " ++ get_customer_behavior_where_clause year_filter region_filter ++ "
            GROUP BY f.order_key, c.customer_key, c.customer_region, d.full_date
        ),
        customer_metrics AS (
            -- Then, aggregate at the customer level
            SELECT 
                customer_key,
                customer_region,
                COUNT(DISTINCT order_key) as order_count,  -- Now correctly counting unique orders
                ROUND(SUM(order_total_value), 2) as total_spent,
                ROUND(AVG(order_total_value), 2) as avg_order_value,
                DATE_DIFF(MAX(full_date), MIN(full_date), DAY) as customer_lifetime_days
            FROM order_summary
            GROUP BY customer_key, customer_region
        )
        SELECT 
            customer_region,
            COUNT(*) as customer_count,
            ROUND(AVG(order_count), 1) as avg_orders_per_customer,
            ROUND(AVG(total_spent), 2) as avg_customer_lifetime_value,
            ROUND(AVG(avg_order_value), 2) as avg_order_value,
            ROUND(AVG(customer_lifetime_days), 1) as avg_customer_lifetime_days,
            SUM(CASE WHEN order_count = 1 THEN 1 ELSE 0 END) as one_time_customers,
            SUM(CASE WHEN order_count > 1 THEN 1 ELSE 0 END) as repeat_customers
        FROM customer_metrics
        GROUP BY customer_region
        ORDER BY avg_customer_lifetime_value DESC
        "

def get_customer_segmentation_query (year_filter region_filter : Option String) : String :=
  "
        WITH customer_metrics AS (
            SELECT 
                c.customer_key,
                c.customer_region,
                COUNT(DISTINCT f.order_key) as order_count,
                ROUND(SUM(f.total_item_value), 2) as total_spent,
                ROUND(AVG(f.total_item_value), 2) as avg_order_value,
                DATE_DIFF(MAX(d.full_date), MIN(d.full_date), DAY) as customer_lifetime_days
            FROM `olist_marts.fact_sales` f
            JOIN `olist_marts.dim_customers` c ON f.customer_key = c.customer_key
            JOIN `olist_marts.dim_date` d ON f.date_key = d.date_key
            " ++ get_customer_segmentation_where_clause year_filter region_filter ++ "
            GROUP BY c.customer_key, c.customer_region
        ),
        customer_segments AS (
            SELECT 
                *,
                CASE 
                    WHEN order_count = 1 THEN 'One-Time Customer'
                    WHEN order_count BETWEEN 2 AND 5 THEN 'Regular Customer'
                    WHEN order_count > 5 THEN 'Loyal Customer'
                END as customer_segment,
                CASE 
                    WHEN total_spent <= 100 THEN 'Low Value'
                    WHEN total_spent BETWEEN 101 AND 500 THEN 'Medium Value'
                    WHEN total_spent > 500 THEN 'High Value'
                END as value_segment
            FROM customer_metrics
        )
        SELECT 
            customer_segment,
            value_segment,
            COUNT(*) as customer_count,
            ROUND(AVG(order_count), 1) as avg_orders,
            ROUND(AVG(total_spent), 2) as avg_lifetime_value,
            ROUND(AVG(avg_order_value), 2) as avg_order_value,
            ROUND(AVG(customer_lifetime_days), 1) as avg_lifetime_days,
            ROUND(SUM(total_spent), 2) as segment_total_value
        FROM customer_segments
        GROUP BY customer_segment, value_segment
        ORDER BY segment_total_value DESC
        "

def get_customer_frequency_analysis_query (year_filter region_filter : Option String) : String :=
  "
        WITH customer_order_counts AS (
            SELECT 
                c.customer_key,
                COUNT(DISTINCT f.order_key) as order_count,
                ROUND(SUM(f.total_item_value), 2) as total_spent
            FROM `olist_marts.fact_sales` f
            JOIN `olist_marts.dim_customers` c ON f.customer_key = c.customer_key
            JOIN `olist_marts.dim_date` d ON f.date_key = d.date_key
            " ++ get_customer_frequency_analysis_where_clause year_filter region_filter ++ "
            GROUP BY c.customer_key
        )
        SELECT 
            order_count,
            COUNT(*) as customer_count,
            ROUND(AVG(total_spent), 2) as avg_customer_value,
            ROUND(SUM(total_spent), 2) as total_segment_value,
            ROUND(COUNT(*) * 100.0 / SUM(COUNT(*)) OVER(), 1) as percentage_of_customers
        FROM customer_order_counts
        GROUP BY order_count
        ORDER BY order_count
        "

def get_payment_analysis_query (year_filter region_filter : Option String) : String :=
  "
        SELECT 
            p.primary_payment_type,
            COUNT(DISTINCT f.order_key) as total_orders,
            ROUND(SUM(f.total_item_value), 2) as total_sales,
            ROUND(AVG(f.total_item_value), 2) as avg_order_value,
            ROUND(AVG(p.total_installments), 1) as avg_installments,
            SUM(CASE WHEN p.uses_credit_card THEN 1 ELSE 0 END) as credit_card_orders,
            SUM(CASE WHEN p.uses_boleto THEN 1 ELSE 0 END) as boleto_orders,
            SUM(CASE WHEN p.uses_voucher THEN 1 ELSE 0 END) as voucher_orders,
            ROUND(SUM(f.payment_value), 2) as total_payments,
            ROUND(AVG(p.payment_methods_count), 1) as avg_payment_methods_count
        FROM `olist_marts.fact_sales` f
        " ++ String.intercalate " " (get_payment_analysis_joins year_filter region_filter) ++ "
        " ++ get_payment_analysis_where_clause year_filter region_filter ++ "
        GROUP BY p.primary_payment_type
        ORDER BY total_sales DESC
        "

def get_installment_analysis_query (year_filter region_filter : Option String) : String :=
  "
        SELECT 
            p.total_installments,
            COUNT(DISTINCT f.order_key) as order_count,
            ROUND(SUM(f.total_item_value), 2) as total_sales,
            ROUND(AVG(f.total_item_value), 2) as avg_order_value,
            ROUND(SUM(f.payment_value), 2) as total_payments,
            ROUND(AVG(f.payment_value), 2) as avg_payment_value,
            ROUND(COUNT(*) * 100.0 / SUM(COUNT(*)) OVER(), 1) as percentage_of_orders
        FROM `olist_marts.fact_sales` f
        " ++ String.intercalate " " (get_installment_analysis_joins year_filter region_filter) ++ "
        " ++ get_installment_analysis_where_clause year_filter region_filter ++ "
        GROUP BY p.total_installments
        ORDER BY p.total_installments
        "

def get_seller_performance_query (year_filter region_filter : Option String) : String :=
  "
        SELECT 
            s.seller_region,
            COUNT(DISTINCT s.seller_key) as unique_sellers,
            COUNT(DISTINCT f.order_key) as total_orders,
            COUNT(f.order_item_sk) as total_items,
            ROUND(SUM(f.total_item_value), 2) as total_revenue,
            ROUND(AVG(f.total_item_value), 2) as avg_item_value,
            ROUND(SUM(f.total_item_value) / COUNT(DISTINCT s.seller_key), 2) as revenue_per_seller,
            COUNT(DISTINCT f.product_key) as unique_products_sold,
            ROUND(AVG(f.freight_value), 2) as avg_freight_value,
            ROUND(SUM(f.freight_value), 2) as total_freight_revenue
        FROM `olist_marts.fact_sales` f
        " ++ String.intercalate " " (get_seller_performance_joins year_filter region_filter) ++ "
        " ++ get_seller_performance_where_clause year_filter region_filter ++ "
        GROUP BY s.seller_region
        ORDER BY total_revenue DESC
        "

def get_top_sellers_query (limit : Nat) (year_filter region_filter : Option String) : String :=
  "
        SELECT 
            s.seller_key,
            s.seller_region,
            s.seller_state,
            s.seller_city,
            COUNT(DISTINCT f.order_key) as total_orders,
            COUNT(f.order_item_sk) as total_items,
            ROUND(SUM(f.total_item_value), 2) as total_revenue,
            ROUND(AVG(f.total_item_value), 2) as avg_item_value,
            COUNT(DISTINCT f.product_key) as unique_products_sold,
            ROUND(SUM(f.freight_value), 2) as total_freight_revenue,
            COUNT(DISTINCT f.customer_key) as unique_customers_served
        FROM `olist_marts.fact_sales` f
        " ++ String.intercalate " " (get_top_sellers_joins year_filter region_filter) ++ "
        " ++ get_top_sellers_where_clause year_filter region_filter ++ "
        GROUP BY s.seller_key, s.seller_region, s.seller_state, s.seller_city
        ORDER BY total_revenue DESC
        LIMIT " ++ toString limit ++ "
        "

def get_seller_product_diversity_query (year_filter region_filter : Option String) : String :=
  "
        WITH seller_categories AS (
            SELECT 
                s.seller_region,
                s.seller_key,
                COUNT(DISTINCT p.product_category_english) as category_count,
                COUNT(DISTINCT f.product_key) as product_count,
                ROUND(SUM(f.total_item_value), 2) as total_revenue
            FROM `olist_marts.fact_sales` f
            " ++ String.intercalate " " (get_seller_product_diversity_joins year_filter region_filter) ++ "
            " ++ get_seller_product_diversity_where_clause year_filter region_filter ++ "
            GROUP BY s.seller_region, s.seller_key
        )
        SELECT 
            seller_region,
            COUNT(*) as seller_count,
            ROUND(AVG(category_count), 1) as avg_categories_per_seller,
            ROUND(AVG(product_count), 1) as avg_products_per_seller,
            ROUND(AVG(total_revenue), 2) as avg_revenue_per_seller,
            SUM(CASE WHEN category_count = 1 THEN 1 ELSE 0 END) as single_category_sellers,
            SUM(CASE WHEN category_count > 3 THEN 1 ELSE 0 END) as diverse_sellers
        FROM seller_categories
        GROUP BY seller_region
        ORDER BY avg_revenue_per_seller DESC
        "

def get_reviews_sales_correlation_query (year_filter region_filter : Option String) : String :=
  "
        SELECT 
            CASE 
                WHEN r.review_key IS NULL THEN 'No Review'
                WHEN r.review_score >= 4 THEN 'Positive (4-5)'
                WHEN r.review_score = 3 THEN 'Neutral (3)'
                ELSE 'Negative (1-2)'
            END as review_category,
            COUNT(f.order_item_sk) as total_items,
            ROUND(SUM(f.total_item_value), 2) as total_sales,
            ROUND(AVG(f.total_item_value), 2) as avg_item_value,
            ROUND(AVG(COALESCE(r.review_score, 0)), 1) as avg_review_score,
            COUNT(r.review_key) as reviews_count,
            COUNT(*) - COUNT(r.review_key) as no_review_count,
            COUNT(DISTINCT f.order_key) as total_orders
        FROM `olist_marts.fact_sales` f
        " ++ String.intercalate " " (get_reviews_sales_correlation_joins year_filter region_filter) ++ "
        " ++ get_reviews_sales_correlation_where_clause year_filter region_filter ++ "
        GROUP BY 
            CASE 
                WHEN r.review_key IS NULL THEN 'No Review'
                WHEN r.review_score >= 4 THEN 'Positive (4-5)'
                WHEN r.review_score = 3 THEN 'Neutral (3)'
                ELSE 'Negative (1-2)'
            END
        ORDER BY total_sales DESC
        "

def get_review_score_distribution_query (year_filter region_filter : Option String) : String :=
  "
        SELECT 
            COALESCE(r.review_score, 0) as review_score,
            COUNT(f.order_item_sk) as total_items,
            ROUND(SUM(f.total_item_value), 2) as total_sales,
            ROUND(AVG(f.total_item_value), 2) as avg_item_value,
            COUNT(DISTINCT f.order_key) as total_orders,
            COUNT(r.review_key) as actual_reviews,
            ROUND(COUNT(f.order_item_sk) * 100.0 / SUM(COUNT(f.order_item_sk)) OVER(), 1) as percentage_of_items
        FROM `olist_marts.fact_sales` f
        " ++ String.intercalate " " (get_review_score_distribution_joins year_filter region_filter) ++ "
        " ++ get_review_score_distribution_where_clause year_filter region_filter ++ "
        GROUP BY COALESCE(r.review_score, 0)
        ORDER BY review_score
        "

def get_review_timing_analysis_query (year_filter region_filter : Option String) : String :=
  "
        WITH review_timing AS (
            SELECT 
                r.days_to_review,
                r.review_score,
                f.total_item_value,
                f.order_key,
                CASE 
                    WHEN r.days_to_review <= 7 THEN 'Quick (≤7 days)'
                    WHEN r.days_to_review <= 30 THEN 'Normal (8-30 days)'
                    WHEN r.days_to_review <= 90 THEN 'Delayed (31-90 days)'
                    ELSE 'Very Late (>90 days)'
                END as timing_category
            FROM `olist_marts.fact_sales` f
            " ++ String.intercalate " " (get_review_timing_analysis_joins year_filter region_filter) ++ "
            " ++ get_review_timing_analysis_where_clause year_filter region_filter ++ "
            AND r.days_to_review IS NOT NULL
        )
        SELECT 
            timing_category,
            COUNT(*) as review_count,
            ROUND(AVG(review_score), 1) as avg_review_score,
            ROUND(SUM(total_item_value), 2) as total_sales,
            ROUND(AVG(total_item_value), 2) as avg_item_value,
            ROUND(AVG(days_to_review), 1) as avg_days_to_review
        FROM review_timing
        GROUP BY timing_category
        ORDER BY avg_days_to_review
        "

def get_delivery_patterns_query (year_filter region_filter : Option String) : String :=
  "
        SELECT 
            c.customer_region,
            COUNT(DISTINCT f.order_key) as total_orders,
            COUNT(f.order_item_sk) as total_items,
            ROUND(SUM(f.total_item_value), 2) as total_sales,
            ROUND(AVG(o.days_to_delivery), 1) as avg_delivery_days,
            ROUND(AVG(o.delivery_vs_estimate_days), 1) as avg_delivery_vs_estimate,
            SUM(CASE WHEN o.is_delivered_on_time THEN 1 ELSE 0 END) as on_time_deliveries,
            SUM(CASE WHEN NOT o.is_delivered_on_time THEN 1 ELSE 0 END) as late_deliveries,
            ROUND(
                SUM(CASE WHEN o.is_delivered_on_time THEN 1 ELSE 0 END) * 100.0 / COUNT(DISTINCT f.order_key), 
                1
            ) as on_time_delivery_rate,
            ROUND(MIN(o.days_to_delivery), 1) as min_delivery_days,
            ROUND(MAX(o.days_to_delivery), 1) as max_delivery_days,
            ROUND(STDDEV(o.days_to_delivery), 1) as delivery_days_stddev
        FROM `olist_marts.fact_sales` f
        " ++ String.intercalate " " (get_delivery_patterns_joins year_filter region_filter) ++ "
        " ++ get_delivery_patterns_where_clause year_filter region_filter ++ "
        GROUP BY c.customer_region
        ORDER BY avg_delivery_days ASC
        "

def get_delivery_time_distribution_query (year_filter region_filter : Option String) : String :=
  "
        SELECT 
            CASE 
                WHEN o.days_to_delivery <= 5 THEN 'Very Fast (≤5 days)'
                WHEN o.days_to_delivery <= 10 THEN 'Fast (6-10 days)'
                WHEN o.days_to_delivery <= 20 THEN 'Normal (11-20 days)'
                WHEN o.days_to_delivery <= 30 THEN 'Slow (21-30 days)'
                ELSE 'Very Slow (>30 days)'
            END as delivery_speed_category,
            COUNT(DISTINCT f.order_key) as total_orders,
            COUNT(f.order_item_sk) as total_items,
            ROUND(SUM(f.total_item_value), 2) as total_sales,
            ROUND(AVG(o.days_to_delivery), 1) as avg_days_in_category,
            SUM(CASE WHEN o.is_delivered_on_time THEN 1 ELSE 0 END) as on_time_orders,
            ROUND(
                SUM(CASE WHEN o.is_delivered_on_time THEN 1 ELSE 0 END) * 100.0 / COUNT(DISTINCT f.order_key), 
                1
            ) as on_time_rate,
            ROUND(AVG(o.delivery_vs_estimate_days), 1) as avg_vs_estimate
        FROM `olist_marts.fact_sales` f
        " ++ String.intercalate " " (get_delivery_time_distribution_joins year_filter region_filter) ++ "
        " ++ get_delivery_time_distribution_where_clause year_filter region_filter ++ "
        GROUP BY 
            CASE 
                WHEN o.days_to_delivery <= 5 THEN 'Very Fast (≤5 days)'
                WHEN o.days_to_delivery <= 10 THEN 'Fast (6-10 days)'
                WHEN o.days_to_delivery <= 20 THEN 'Normal (11-20 days)'
                WHEN o.days_to_delivery <= 30 THEN 'Slow (21-30 days)'
                ELSE 'Very Slow (>30 days)'
            END
        ORDER BY avg_days_in_category
        "

def get_delivery_efficiency_analysis_query (year_filter region_filter : Option String) : String :=
  "
        SELECT 
            c.customer_region,
            s.seller_region,
            CASE 
                WHEN c.customer_region = s.seller_region THEN 'Same Region'
                ELSE 'Cross Region'
            END as delivery_type,
            COUNT(DISTINCT f.order_key) as total_orders,
            ROUND(AVG(o.days_to_delivery), 1) as avg_delivery_days,
            ROUND(AVG(o.delivery_vs_estimate_days), 1) as avg_vs_estimate,
            ROUND(
                SUM(CASE WHEN o.is_delivered_on_time THEN 1 ELSE 0 END) * 100.0 / COUNT(DISTINCT f.order_key), 
                1
            ) as on_time_rate,
            ROUND(SUM(f.total_item_value), 2) as total_sales,
            ROUND(AVG(f.freight_value), 2) as avg_freight_cost
        FROM `olist_marts.fact_sales` f
        " ++ String.intercalate " " (get_delivery_efficiency_analysis_joins year_filter region_filter) ++ "
        " ++ get_delivery_efficiency_analysis_where_clause year_filter region_filter ++ "
        GROUP BY c.customer_region, s.seller_region, 
            CASE 
                WHEN c.customer_region = s.seller_region THEN 'Same Region'
                ELSE 'Cross Region'
            END
        ORDER BY avg_delivery_days ASC
        "

/-- Fixed summary SQL of `get_dashboard_summary` (no filters, no decorator). -/
def get_dashboard_summary_query : String :=
  "
        SELECT
            COUNT(DISTINCT f.order_key) as total_orders,
            COUNT(f.order_item_sk) as total_items,
            ROUND(SUM(f.total_item_value), 2) as total_sales,
            ROUND(AVG(f.total_item_value), 2) as avg_order_value,
            COUNT(DISTINCT f.customer_key) as unique_customers,
            COUNT(DISTINCT f.seller_key) as unique_sellers,
            COUNT(DISTINCT f.product_key) as unique_products
        FROM `olist_marts.fact_sales` f
        "

/-! ## The supported UI filter arguments and the catalogue of query functions -/

/-- Year selector options of the dashboard sidebar. -/
def yearOptions : List (Option String) :=
  [some "All Years", some "2016", some "2017", some "2018"]

/-- Region selector options of the dashboard sidebar. -/
def regionOptions : List (Option String) :=
  [some "All Regions", some "North", some "Northeast", some "Southeast", some "South", some "Central-West"]

/-- The WHERE-fragment collections of every query function taking both a year
and a region filter (the two `limit` functions at their default limit). -/
def queryPredicateSets : List (Option String → Option String → List String) :=
  [get_monthly_sales_trends_predicates,
   get_top_products_categories_predicates,
   get_sales_by_state_conditions,
   get_customer_behavior_conditions,
   get_customer_segmentation_conditions,
   get_customer_frequency_analysis_conditions,
   get_payment_analysis_conditions,
   get_installment_analysis_conditions,
   get_seller_performance_conditions,
   get_top_sellers_conditions,
   get_seller_product_diversity_conditions,
   get_reviews_sales_correlation_conditions,
   get_review_score_distribution_conditions,
   get_review_timing_analysis_conditions,
   get_delivery_patterns_conditions,
   get_delivery_time_distribution_conditions,
   get_delivery_efficiency_analysis_conditions]

/-- The WHERE-fragment collections of the two query functions taking only a
year filter. -/
def yearOnlyPredicateSets : List (Option String → List String) :=
  [get_sales_by_region_predicates,
   get_customer_seller_flow_predicates]

/-- SQL generators of every query function taking both filters. -/
def queryBuilders : List (Option String → Option String → String) :=
  [get_monthly_sales_trends_query,
   get_top_products_categories_query 20,
   get_sales_by_state_query,
   get_customer_behavior_query,
   get_customer_segmentation_query,
   get_customer_frequency_analysis_query,
   get_payment_analysis_query,
   get_installment_analysis_query,
   get_seller_performance_query,
   get_top_sellers_query 20,
   get_seller_product_diversity_query,
   get_reviews_sales_correlation_query,
   get_review_score_distribution_query,
   get_review_timing_analysis_query,
   get_delivery_patterns_query,
   get_delivery_time_distribution_query,
   get_delivery_efficiency_analysis_query]

/-- SQL generators of the two year-only query functions. -/
def yearOnlyQueryBuilders : List (Option String → String) :=
  [get_sales_by_region_query,
   get_customer_seller_flow_query]

/-- Join collections of the two-filter query functions whose fixed base joins
already reach the date or the customer/seller dimension. -/
def c2JoinSets : List (Option String → Option String → List String) :=
  [fun _ _ => get_monthly_sales_trends_join_clauses,
   get_sales_by_state_joins,
   fun _ _ => get_customer_behavior_join_clauses,
   fun _ _ => get_customer_segmentation_join_clauses,
   fun _ _ => get_customer_frequency_analysis_join_clauses,
   get_seller_performance_joins,
   get_top_sellers_joins,
   get_seller_product_diversity_joins,
   get_delivery_patterns_joins,
   get_delivery_time_distribution_joins,
   get_delivery_efficiency_analysis_joins]

/-- Join collections of the year-only query functions (base joins reach the
customer and seller dimensions). -/
def c2JoinSetsYearOnly : List (Option String → List String) :=
  [get_sales_by_region_joins,
   get_customer_seller_flow_joins]

/-- Backtick-qualified table references of the star schema. -/
def martTableRefs : List String :=
  ["`olist_marts.fact_sales`",
   "`olist_marts.dim_date`",
   "`olist_marts.dim_customers`",
   "`olist_marts.dim_sellers`",
   "`olist_marts.dim_products`",
   "`olist_marts.dim_payments`",
   "`olist_marts.dim_reviews`",
   "`olist_marts.dim_orders`"]

/-! ## Result tables and the per-function failure boundary (C3) -/

/-- A query result, modelled by its list of rows (each row a list of cells).
`pd.DataFrame()` and a zero-row result both correspond to `[]`. -/
abbrev DataFrame := List (List String)

/-- The empty table returned by the `except` branch of every query function. -/
def emptyDataFrame : DataFrame := []

/-- Body shared by every query function: run the generated SQL through
`execute_query` (modelled as a fallible callback) inside a `try`/`except`
that logs and converts any raised exception into an empty table. -/
def runQueryFn (execq : String → Except String DataFrame) (sql : String) : DataFrame :=
  match execq sql with
  | Except.ok df => df
  | Except.error _ => emptyDataFrame

/-! ## Cache decorator layout and its semantics (C4) -/

/-- The functions of `data_queries.py` carrying `@st.cache_data(ttl=600)`,
in source order. -/
def decoratedQueryFunctions : List String :=
  ["get_monthly_sales_trends",
   "get_top_products_categories",
   "get_sales_by_region",
   "get_sales_by_state",
   "get_customer_seller_flow",
   "get_customer_behavior",
   "get_customer_segmentation",
   "get_customer_frequency_analysis",
   "get_payment_analysis",
   "get_installment_analysis",
   "get_seller_performance",
   "get_top_sellers",
   "get_seller_product_diversity",
   "get_reviews_sales_correlation",
   "get_review_score_distribution",
   "get_review_timing_analysis",
   "get_delivery_patterns",
   "get_delivery_time_distribution",
   "get_delivery_efficiency_analysis"]

/-- Cache time-to-live attached to each query-layer function by its
decorator.  `get_dashboard_summary` and `validate_marts_data` carry no
`@st.cache_data` decorator and therefore map to `none`. -/
def queryFunctionTtl (fn : String) : Option Nat :=
  if fn ∈ decoratedQueryFunctions then some 600 else none

/-- One memoized entry: function name, full argument tuple, store time. -/
structure CacheEntry where
  fn : String
  args : List String
  storedAt : Nat
deriving DecidableEq

/-- Observable cache events: a call at a given time, or the manual
`st.cache_data.clear()` reset. -/
inductive CacheEvent where
  | call (fn : String) (args : List String) (time : Nat)
  | clearAll
deriving DecidableEq

/-- Modelled from the spec: `st.cache_data` memoizes each decorated function
by its full argument tuple for `ttl` seconds, an undecorated function always
recomputes, and `st.cache_data.clear()` drops every entry of every function.
The state is the entry list paired with the number of warehouse calls issued. -/
def cacheStep : (List CacheEntry × Nat) → CacheEvent → (List CacheEntry × Nat)
  | (entries, calls), CacheEvent.call fn args t =>
    match queryFunctionTtl fn with
    | none => (entries, calls + 1)
    | some ttl =>
      if entries.any (fun e => e.fn == fn && e.args == args && decide (t - e.storedAt < ttl)) then
        (entries, calls)
      else
        ({ fn := fn, args := args, storedAt := t } :: entries, calls + 1)
  | (_, calls), CacheEvent.clearAll => ([], calls)

/-- Number of warehouse calls issued by a sequence of cache events starting
from an empty cache. -/
def warehouseCalls (evs : List CacheEvent) : Nat :=
  (evs.foldl cacheStep ([], 0)).2

/-! ## The CSV loader (C7) -/

/-- Row count of a CSV file: its line count minus one for the header
(`sum(1 for _ in f) - 1` in `get_csv_row_count`). -/
def get_csv_row_count (fileLines : List String) : Int :=
  (fileLines.length : Int) - 1

/-- Outcome of loading one CSV file into one table. -/
structure LoadResult where
  success : Bool
  loaded_rows : Nat
  warned : Bool
deriving DecidableEq

/-- Embedding of `load_csv_to_table`: count the source rows, create the
table (modelled as a fallible external call whose success also reports the
row count read back from the table), warn when the source count is positive
and differs from the loaded count, and return `(True, loaded_rows)`; any
exception from the create step yields `(False, 0)`. -/
def load_csv_to_table (fileLines : List String) (createTable : Except String Nat) : LoadResult :=
  let original_rows := get_csv_row_count fileLines
  match createTable with
  | Except.error _ => { success := false, loaded_rows := 0, warned := false }
  | Except.ok loaded_rows =>
    { success := true
      loaded_rows := loaded_rows
      warned := decide (0 < original_rows) && !((loaded_rows : Int) == original_rows) }

/-! ## Dashboard summary metrics of the monthly-sales tab (C8) -/

/-- One row of the monthly-sales-trends result as consumed by the dashboard. -/
structure TrendRow where
  total_sales : Rat
  total_orders : Nat
  total_items : Nat
  avg_order_value : Rat
deriving DecidableEq

/-- `total_sales = sales_data['total_sales'].sum()` in `main`. -/
def tab1_total_sales (sales_data : List TrendRow) : Rat :=
  (sales_data.map TrendRow.total_sales).sum

/-- `total_orders = sales_data['total_orders'].sum()` in `main`. -/
def tab1_total_orders (sales_data : List TrendRow) : Nat :=
  (sales_data.map TrendRow.total_orders).sum

/-- `total_items = sales_data['total_items'].sum()` in `main`. -/
def tab1_total_items (sales_data : List TrendRow) : Nat :=
  (sales_data.map TrendRow.total_items).sum

/-- `avg_order_value = total_sales / total_orders if total_orders > 0 else 0`. -/
def tab1_avg_order_value (sales_data : List TrendRow) : Rat :=
  if 0 < tab1_total_orders sales_data then
    tab1_total_sales sales_data / ((tab1_total_orders sales_data : Nat) : Rat)
  else 0

/-- Stated from the claim for comparison: the average order value as a ratio
of column sums, guarded by a positive order total. -/
def claimed_avg_order_value (rows : List TrendRow) : Rat :=
  if 0 < (rows.map TrendRow.total_orders).sum then
    (rows.map TrendRow.total_sales).sum / (((rows.map TrendRow.total_orders).sum : Nat) : Rat)
  else 0

/-- The average of the per-row `avg_order_value` column, which the dashboard
does **not** compute. -/
def mean_of_avg_order_value (rows : List TrendRow) : Rat :=
  (rows.map TrendRow.avg_order_value).sum / ((rows.length : Nat) : Rat)

/-! ## Relational semantics of the reviews-sales correlation query (C5) -/

/-- One `fact_sales` row (only the attributes the query touches);
`review_key` is nullable. -/
structure FactRow where
  order_item_sk : Nat
  order_key : Nat
  total_item_value : Int
  review_key : Option Nat
deriving DecidableEq

/-- One `dim_reviews` row. -/
structure ReviewRow where
  review_key : Nat
  review_score : Int
deriving DecidableEq

/-- Join predicate `f.review_key = r.review_key` (null never matches). -/
def reviewMatches (f : FactRow) (r : ReviewRow) : Bool :=
  f.review_key == some r.review_key

/-- `LEFT JOIN dim_reviews r ON f.review_key = r.review_key`: every fact row
is kept; a row with no matching review is paired with `none`. -/
def leftJoinReviews (facts : List FactRow) (reviews : List ReviewRow) :
    List (FactRow × Option ReviewRow) :=
  facts.flatMap (fun f =>
    let ms := reviews.filter (fun r => reviewMatches f r)
    if ms.isEmpty then [(f, none)] else ms.map (fun r => (f, some r)))

/-- The CASE expression bucketing each joined row into a review category;
an unmatched (null) review key yields the explicit `No Review` bucket. -/
def review_category : Option ReviewRow → String
  | none => "No Review"
  | some r =>
    if 4 ≤ r.review_score then "Positive (4-5)"
    else if r.review_score = 3 then "Neutral (3)"
    else "Negative (1-2)"

/-- First-occurrence deduplication (the distinct GROUP BY keys). -/
def dedupKeys [BEq α] : List α → List α
  | [] => []
  | a :: as => a :: (dedupKeys as).filter (fun b => !(b == a))

/-- Insert into a list sorted descending by `key` (used for `ORDER BY`). -/
def insertDesc (key : α → Int) (a : α) : List α → List α
  | [] => [a]
  | b :: bs => if key b ≤ key a then a :: b :: bs else b :: insertDesc key a bs

/-- Sort a list descending by `key` (the `ORDER BY ... DESC` step). -/
def sortByDesc (key : α → Int) : List α → List α
  | [] => []
  | a :: as => insertDesc key a (sortByDesc key as)

/-- `ROUND(q, d)`: round to `d` decimal places. -/
def roundTo (d : Nat) (q : Rat) : Rat :=
  ((round (q * (10 : Rat) ^ d) : Int) : Rat) / (10 : Rat) ^ d

/-- One result row of the reviews-sales correlation query. -/
structure ReviewCorrRow where
  review_category : String
  total_items : Nat
  total_sales : Int
  avg_item_value : Rat
  avg_review_score : Rat
  reviews_count : Nat
  no_review_count : Nat
  total_orders : Nat

/-- Evaluation of the SQL emitted by `get_reviews_sales_correlation_query`
(no filters) over a star-schema instance: LEFT JOIN to `dim_reviews`, CASE
bucketing, GROUP BY category with the aggregates of the SELECT list
(`COUNT(r.review_key)` counts only matched reviews, `COUNT(*) -
COUNT(r.review_key)` the unmatched rows), then `ORDER BY total_sales DESC`. -/
def evalReviewsSalesCorrelation (facts : List FactRow) (reviews : List ReviewRow) :
    List ReviewCorrRow :=
  let j := leftJoinReviews facts reviews
  let cats := dedupKeys (j.map (fun p => review_category p.2))
  let rows := cats.map (fun cat =>
    let g := j.filter (fun p => review_category p.2 == cat)
    let items := g.length
    let sales := (g.map (fun p => p.1.total_item_value)).sum
    let rcount := (g.filter (fun p => p.2.isSome)).length
    let scoreSum := (g.map (fun p =>
      match p.2 with
      | some r => r.review_score
      | none => 0)).sum
    { review_category := cat
      total_items := items
      total_sales := sales
      avg_item_value := roundTo 2 ((sales : Rat) / (items : Rat))
      avg_review_score := roundTo 1 ((scoreSum : Rat) / (items : Rat))
      reviews_count := rcount
      no_review_count := items - rcount
      total_orders := (dedupKeys (g.map (fun p => p.1.order_key))).length })
  sortByDesc (fun row => row.total_sales) rows

/-! ## Percentage-of-total columns (C6) -/

/-- The window-function percentage column
`ROUND(COUNT(*) * 100.0 / SUM(COUNT(*)) OVER(), 1)` applied to the list of
per-group counts of a distribution query. -/
def pct_of_total (counts : List Nat) : List Rat :=
  counts.map (fun (c : Nat) => roundTo 1 ((c : Rat) * 100 / (counts.sum : Rat)))

/-! ## Claim checkers for the filter and join properties (C1, C2) -/

/-- C1 check on one function's WHERE fragments for one argument pair: a year
clause `d.year = <year>` appears among the fragments exactly when the year
argument is concrete, and a region clause `customer_region = '<region>'` or
`seller_region = '<region>'` appears exactly when the region argument is
concrete. -/
def c1ok (preds : List String) (yf rf : Option String) : Bool :=
  ((preds.any (fun p => containsSub p "d.year = ")) == isConcrete yf "All Years") &&
  ((preds.any (fun p => containsSub p "customer_region = '" || containsSub p "seller_region = '"))
      == isConcrete rf "All Regions") &&
  (if isConcrete yf "All Years" then
      preds.any (fun p => containsSub p ("d.year = " ++ yf.getD ""))
    else true) &&
  (if isConcrete rf "All Regions" then
      preds.any (fun p =>
        containsSub p ("customer_region = '" ++ rf.getD "" ++ "'") ||
        containsSub p ("seller_region = '" ++ rf.getD "" ++ "'"))
    else true)

/-- C1 check for the functions that take only a year filter. -/
def c1okYear (preds : List String) (yf : Option String) : Bool :=
  ((preds.any (fun p => containsSub p "d.year = ")) == isConcrete yf "All Years") &&
  (if isConcrete yf "All Years" then
      preds.any (fun p => containsSub p ("d.year = " ++ yf.getD ""))
    else true)

/-- C2 check: no star-schema table is referenced by two different join
clauses of the same generated query. -/
def c2ok (joins : List String) : Bool :=
  martTableRefs.all (fun t => decide ((joins.filter (fun j => containsSub j t)).length ≤ 1))

/-! ## Substring lemmas for the verbatim-interpolation claim (C9) -/

theorem strData_append (a b : String) : (a ++ b).data = a.data ++ b.data := by
  cases a
  cases b
  rfl

theorem startsL_self (p rest : List Char) : startsL p (p ++ rest) = true := by
  induction p with
  | nil => rfl
  | cons a as ih =>
    show (a == a && startsL as (as ++ rest)) = true
    simp [ih]

theorem hasSubL_nil_pat (s : List Char) : hasSubL [] s = true := by
  cases s with
  | nil => rfl
  | cons c rest => rfl

theorem hasSubL_mid (a p b : List Char) : hasSubL p (a ++ (p ++ b)) = true := by
  induction a with
  | nil =>
    show hasSubL p (p ++ b) = true
    cases p with
    | nil => exact hasSubL_nil_pat b
    | cons c cs =>
      show (startsL (c :: cs) (c :: (cs ++ b)) || hasSubL (c :: cs) (cs ++ b)) = true
      have h := startsL_self (c :: cs) b
      rw [List.cons_append] at h
      rw [h]
      rfl
  | cons c a' ih =>
    show (startsL p (c :: (a' ++ (p ++ b))) || hasSubL p (a' ++ (p ++ b))) = true
    rw [ih]
    simp

theorem containsSub_of_split (s pre pat post : String)
    (h : s.data = pre.data ++ (pat.data ++ post.data)) : containsSub s pat = true := by
  unfold containsSub
  rw [h]
  exact hasSubL_mid _ _ _

theorem isConcrete_some (s sentinel : String) (h1 : s ≠ "") (h2 : s ≠ sentinel) :
    isConcrete (some s) sentinel = true := by
  simp [isConcrete, h1, h2]

/-! ## Claim theorems -/

/-- C1: for every query function of the query layer and every supported
(year, region) argument pair, the generated predicate set contains a year
clause `d.year = <year>` exactly when the year argument is a concrete year
(not the `All Years` sentinel), and a region clause
`customer_region/seller_region = '<region>'` exactly when the region
argument is a concrete region.  The first conjunct covers the seventeen
functions taking both filters (the two limit-taking ones at their default
limit of 20), the second the two functions taking only a year filter. -/
theorem claim_C1_predicate_iff :
    (∀ ps ∈ queryPredicateSets, ∀ y ∈ yearOptions, ∀ r ∈ regionOptions,
        c1ok (ps y r) y r = true)
    ∧ (∀ ps ∈ yearOnlyPredicateSets, ∀ y ∈ yearOptions,
        c1okYear (ps y) y = true) := by
  constructor <;> decide

theorem claim_C1_witness :
    c1ok (get_monthly_sales_trends_predicates (some "2017") (some "South"))
      (some "2017") (some "South") = true :=
  claim_C1_predicate_iff.1 get_monthly_sales_trends_predicates
    (List.mem_cons_self _ _) (some "2017") (by decide) (some "South") (by decide)

/-- C2: for every query function whose fixed base join set already includes
the date dimension or the customer/seller dimension, and for every supported
(year, region) argument pair, the accumulated join list never references the
same star-schema table twice: a redundant filter only adds a WHERE predicate,
never a duplicate join clause. -/
theorem claim_C2_no_duplicate_joins :
    (∀ js ∈ c2JoinSets, ∀ y ∈ yearOptions, ∀ r ∈ regionOptions,
        c2ok (js y r) = true)
    ∧ (∀ js ∈ c2JoinSetsYearOnly, ∀ y ∈ yearOptions,
        c2ok (js y) = true) := by
  constructor <;> decide

theorem claim_C2_witness :
    c2ok (get_delivery_patterns_joins (some "2017") (some "South")) = true :=
  claim_C2_no_duplicate_joins.1 get_delivery_patterns_joins
    (by simp [c2JoinSets]) (some "2017") (by decide) (some "South") (by decide)

/-- C10: for every query function, passing `None` or the empty string as a
filter produces exactly the same generated SQL text as passing the explicit
`All Years` / `All Regions` sentinel: the check is truthiness-based, so all
falsy values add no predicate and no extra join. -/
theorem claim_C10_falsy_filters_identical :
    (∀ q ∈ queryBuilders,
        q none none = q (some "") (some "")
        ∧ q none none = q (some "All Years") (some "All Regions"))
    ∧ (∀ q ∈ yearOnlyQueryBuilders,
        q none = q (some "") ∧ q none = q (some "All Years")) := by
  constructor
  · intro q hq
    fin_cases hq <;> exact ⟨rfl, rfl⟩
  · intro q hq
    fin_cases hq <;> exact ⟨rfl, rfl⟩

theorem claim_C10_witness :
    get_monthly_sales_trends_query none none
        = get_monthly_sales_trends_query (some "") (some "")
    ∧ get_monthly_sales_trends_query none none
        = get_monthly_sales_trends_query (some "All Years") (some "All Regions") :=
  claim_C10_falsy_filters_identical.1 get_monthly_sales_trends_query
    (List.mem_cons_self _ _)

/-- C3: every query function runs its generated SQL through the shared
`try`-wrapped body `runQueryFn`; when the warehouse call raises, the caught
exception is converted into the empty table, and when the call legitimately
matches zero rows the caller receives that same empty table, so the two
cases are indistinguishable from the returned value.  (The log side effect
is not modelled.) -/
theorem claim_C3_failure_empty_table :
    ∀ q ∈ queryBuilders, ∀ (execq : String → Except String DataFrame) (y r : Option String),
      (∀ e : String, execq (q y r) = Except.error e →
          runQueryFn execq (q y r) = emptyDataFrame)
      ∧ (execq (q y r) = Except.ok emptyDataFrame →
          runQueryFn execq (q y r) = emptyDataFrame) := by
  intro q _ execq y r
  constructor
  · intro e he
    unfold runQueryFn
    rw [he]
  · intro he
    unfold runQueryFn
    rw [he]

theorem claim_C3_witness :
    runQueryFn (fun _ => Except.error "connection failed")
      (get_monthly_sales_trends_query none none) = emptyDataFrame :=
  (claim_C3_failure_empty_table get_monthly_sales_trends_query
    (List.mem_cons_self _ _) (fun _ => Except.error "connection failed") none none).1
    "connection failed" rfl

/-- C4 (amended): every *decorated* query-layer function is memoized by its
full argument tuple with a 600-second TTL — a second identical call within
the TTL issues no new warehouse call, a call at or past the TTL does, the
manual clear empties all cached entries of all functions at once, and the
call after it issues a new warehouse call.  `get_dashboard_summary` carries
no decorator: two identical calls always issue two warehouse calls. -/
theorem claim_C4_amended_cache_ttl :
    ∀ fn ∈ decoratedQueryFunctions, ∀ (args : List String) (t d : Nat),
      (d < 600 →
        warehouseCalls [CacheEvent.call fn args t, CacheEvent.call fn args (t + d)] = 1)
      ∧ (600 ≤ d →
        warehouseCalls [CacheEvent.call fn args t, CacheEvent.call fn args (t + d)] = 2)
      ∧ warehouseCalls
          [CacheEvent.call fn args t, CacheEvent.clearAll, CacheEvent.call fn args (t + d)] = 2
      ∧ (∀ (st : List CacheEntry × Nat), (cacheStep st CacheEvent.clearAll).1 = [])
      ∧ warehouseCalls
          [CacheEvent.call "get_dashboard_summary" [] t,
           CacheEvent.call "get_dashboard_summary" [] (t + d)] = 2 := by
  intro fn hfn args t d
  have httl : queryFunctionTtl fn = some 600 := by
    unfold queryFunctionTtl
    rw [if_pos hfn]
  have hsummary : queryFunctionTtl "get_dashboard_summary" = none := by decide
  have hfresh : ∀ ttl : Nat,
      ([({ fn := fn, args := args, storedAt := t } : CacheEntry)].any
        (fun e => e.fn == fn && e.args == args && decide (t + d - e.storedAt < ttl)))
      = decide (d < ttl) := by
    intro ttl
    simp [List.any, Nat.add_sub_cancel_left]
  refine ⟨?_, ?_, ?_, ?_, ?_⟩
  · intro hd
    simp only [warehouseCalls, List.foldl, cacheStep, httl, List.any_nil, Bool.false_eq_true,
      if_false, hfresh, decide_eq_true hd, if_true]
  · intro hd
    have : decide (d < 600) = false := decide_eq_false (Nat.not_lt.mpr hd)
    simp only [warehouseCalls, List.foldl, cacheStep, httl, List.any_nil, Bool.false_eq_true,
      if_false, hfresh, this]
  · simp only [warehouseCalls, List.foldl, cacheStep, httl, List.any_nil, Bool.false_eq_true,
      if_false]
  · intro st
    rfl
  · simp only [warehouseCalls, List.foldl, cacheStep, hsummary]

theorem claim_C4_witness :
    warehouseCalls
      [CacheEvent.call "get_monthly_sales_trends" ["2017", "South"] 0,
       CacheEvent.call "get_monthly_sales_trends" ["2017", "South"] 10] = 1
    ∧ warehouseCalls
      [CacheEvent.call "get_monthly_sales_trends" ["2017", "South"] 0, CacheEvent.clearAll,
       CacheEvent.call "get_monthly_sales_trends" ["2017", "South"] 10] = 2 := by
  have h := claim_C4_amended_cache_ttl "get_monthly_sales_trends" (by decide)
    ["2017", "South"] 0 10
  exact ⟨h.1 (by decide), h.2.2.1⟩

/-- C4 counterexample: `get_dashboard_summary` belongs to the query layer but
carries no `@st.cache_data` decorator, so two calls with identical arguments
within any TTL window issue two warehouse calls, not one as the claim
requires of every query-layer function. -/
theorem claim_C4_counterexample :
    queryFunctionTtl "get_dashboard_summary" = none
    ∧ warehouseCalls
        [CacheEvent.call "get_dashboard_summary" [] 0,
         CacheEvent.call "get_dashboard_summary" [] 10] = 2
    ∧ warehouseCalls
        [CacheEvent.call "get_dashboard_summary" [] 0,
         CacheEvent.call "get_dashboard_summary" [] 10] ≠ 1 := by
  refine ⟨by decide, by decide, by decide⟩

/-- C7 (amended): the loader computes the source row count as the file's
line count minus one, and compares it with the count read back from the
created table; when the source count is *positive* and the counts differ it
logs a warning; in every successfully-created case the per-file load still
reports success together with the loaded count, and a mismatch never raises
an exception and never turns the load into a failure. -/
theorem claim_C7_amended_row_count_warning
    (fileLines : List String) (loadedRows : Nat) :
    get_csv_row_count fileLines = (fileLines.length : Int) - 1
    ∧ (load_csv_to_table fileLines (Except.ok loadedRows)).success = true
    ∧ (load_csv_to_table fileLines (Except.ok loadedRows)).loaded_rows = loadedRows
    ∧ ((load_csv_to_table fileLines (Except.ok loadedRows)).warned = true ↔
        0 < get_csv_row_count fileLines ∧ (loadedRows : Int) ≠ get_csv_row_count fileLines) := by
  refine ⟨rfl, rfl, rfl, ?_⟩
  simp [load_csv_to_table]

/-- C7 counterexample: a header-only CSV (source row count 0) whose table
creation reports 5 loaded rows is a mismatch, yet the guard
`original_rows > 0` suppresses the warning, contradicting the claim that a
warning is logged on *any* mismatch; the load still reports success. -/
theorem claim_C7_counterexample :
    ((load_csv_to_table ["header"] (Except.ok 5)).loaded_rows : Int)
        ≠ get_csv_row_count ["header"]
    ∧ (load_csv_to_table ["header"] (Except.ok 5)).warned = false
    ∧ (load_csv_to_table ["header"] (Except.ok 5)).success = true := by
  refine ⟨by decide, by decide, by decide⟩

/-- C8: for every non-empty monthly-sales-trends result table the dashboard
metrics are the column sums, and the displayed average order value is the
ratio of sums guarded by a positive order total — not the mean of the
per-row `avg_order_value` column, which would give a different number. -/
theorem claim_C8_summary_metrics (rows : List TrendRow) (hne : rows ≠ []) :
    tab1_total_sales rows = (rows.map TrendRow.total_sales).sum
    ∧ tab1_total_orders rows = (rows.map TrendRow.total_orders).sum
    ∧ tab1_total_items rows = (rows.map TrendRow.total_items).sum
    ∧ tab1_avg_order_value rows = claimed_avg_order_value rows
    ∧ ¬ (∀ other : List TrendRow, other ≠ [] →
          tab1_avg_order_value other = mean_of_avg_order_value other) := by
  refine ⟨rfl, rfl, rfl, rfl, ?_⟩
  intro hall
  have h := hall [⟨10, 1, 1, 10⟩, ⟨10, 4, 1, (5 : Rat) / 2⟩] (by simp)
  norm_num [tab1_avg_order_value, tab1_total_orders, tab1_total_sales,
    mean_of_avg_order_value] at h

theorem claim_C8_witness :
    tab1_total_sales [⟨300, 2, 3, 150⟩, ⟨100, 1, 1, 100⟩, ⟨200, 2, 2, 100⟩]
        = ((([⟨300, 2, 3, 150⟩, ⟨100, 1, 1, 100⟩, ⟨200, 2, 2, 100⟩] : List TrendRow)).map
            TrendRow.total_sales).sum
    ∧ tab1_total_orders [⟨300, 2, 3, 150⟩, ⟨100, 1, 1, 100⟩, ⟨200, 2, 2, 100⟩]
        = ((([⟨300, 2, 3, 150⟩, ⟨100, 1, 1, 100⟩, ⟨200, 2, 2, 100⟩] : List TrendRow)).map
            TrendRow.total_orders).sum
    ∧ tab1_total_items [⟨300, 2, 3, 150⟩, ⟨100, 1, 1, 100⟩, ⟨200, 2, 2, 100⟩]
        = ((([⟨300, 2, 3, 150⟩, ⟨100, 1, 1, 100⟩, ⟨200, 2, 2, 100⟩] : List TrendRow)).map
            TrendRow.total_items).sum
    ∧ tab1_avg_order_value [⟨300, 2, 3, 150⟩, ⟨100, 1, 1, 100⟩, ⟨200, 2, 2, 100⟩]
        = claimed_avg_order_value [⟨300, 2, 3, 150⟩, ⟨100, 1, 1, 100⟩, ⟨200, 2, 2, 100⟩]
    ∧ ¬ (∀ other : List TrendRow, other ≠ [] →
          tab1_avg_order_value other = mean_of_avg_order_value other) :=
  claim_C8_summary_metrics [⟨300, 2, 3, 150⟩, ⟨100, 1, 1, 100⟩, ⟨200, 2, 2, 100⟩] (by simp)

theorem roundTo_one_close (x : Rat) : |roundTo 1 x - x| ≤ 1 / 20 := by
  unfold roundTo
  have h := abs_sub_round (x * (10 : Rat) ^ 1)
  have h10 : ((10 : Rat) ^ 1) = 10 := pow_one 10
  rw [h10] at h ⊢
  have heq : ((round (x * 10) : Int) : Rat) / 10 - x
      = (((round (x * 10) : Int) : Rat) - x * 10) / 10 := by ring
  rw [heq, abs_div]
  have habs : |(10 : Rat)| = 10 := by norm_num
  rw [habs, abs_sub_comm]
  linarith

theorem sum_roundTo_close (xs : List Rat) :
    |(xs.map (roundTo 1)).sum - xs.sum| ≤ (xs.length : Rat) / 20 := by
  induction xs with
  | nil => simp
  | cons x xs ih =>
    simp only [List.map_cons, List.sum_cons, List.length_cons]
    have h1 := roundTo_one_close x
    have tri : |roundTo 1 x + (xs.map (roundTo 1)).sum - (x + xs.sum)|
        ≤ |roundTo 1 x - x| + |(xs.map (roundTo 1)).sum - xs.sum| := by
      have hsplit : roundTo 1 x + (xs.map (roundTo 1)).sum - (x + xs.sum)
          = (roundTo 1 x - x) + ((xs.map (roundTo 1)).sum - xs.sum) := by ring
      rw [hsplit]
      exact abs_add _ _
    have hcast : ((xs.length + 1 : Nat) : Rat) = (xs.length : Rat) + 1 := by push_cast; ring
    calc |roundTo 1 x + (xs.map (roundTo 1)).sum - (x + xs.sum)|
        ≤ |roundTo 1 x - x| + |(xs.map (roundTo 1)).sum - xs.sum| := tri
      _ ≤ 1 / 20 + (xs.length : Rat) / 20 := add_le_add h1 ih
      _ = ((xs.length + 1 : Nat) : Rat) / 20 := by rw [hcast]; ring

theorem sum_map_mul_div (l : List Nat) (T : Rat) :
    (l.map (fun (c : Nat) => (c : Rat) * 100 / T)).sum = (l.sum : Rat) * 100 / T := by
  induction l with
  | nil => simp
  | cons c cs ih =>
    simp only [List.map_cons, List.sum_cons, ih, Nat.cast_add]
    ring

/-- C6: in the distribution queries the percentage column is the group count
times 100 over the grand total, rounded to one decimal place; over the whole
result set these percentages sum to 100 up to the accumulated rounding
tolerance of one twentieth per row.  The last three conjuncts exhibit the
window-function fragment verbatim inside the SQL generated by the customer
frequency, installment, and review-score-distribution functions. -/
theorem claim_C6_percentages_sum (counts : List Nat) (h : counts.sum ≠ 0) :
    |(pct_of_total counts).sum - 100| ≤ (counts.length : Rat) / 20
    ∧ containsSub (get_customer_frequency_analysis_query none none)
        "ROUND(COUNT(*) * 100.0 / SUM(COUNT(*)) OVER(), 1) as percentage_of_customers" = true
    ∧ containsSub (get_installment_analysis_query none none)
        "ROUND(COUNT(*) * 100.0 / SUM(COUNT(*)) OVER(), 1) as percentage_of_orders" = true
    ∧ containsSub (get_review_score_distribution_query none none)
        "ROUND(COUNT(f.order_item_sk) * 100.0 / SUM(COUNT(f.order_item_sk)) OVER(), 1) as percentage_of_items" = true := by
  refine ⟨?_, by decide, by decide, by decide⟩
  have hT : ((counts.sum : Nat) : Rat) ≠ 0 := Nat.cast_ne_zero.mpr h

  have hexact :
      (counts.map (fun (c : Nat) => (c : Rat) * 100 / (counts.sum : Rat))).sum = 100 := by
    rw [sum_map_mul_div]
    rw [div_eq_iff hT]
    ring
  have hmain := sum_roundTo_close
    (counts.map (fun (c : Nat) => (c : Rat) * 100 / (counts.sum : Rat)))
  rw [hexact] at hmain
  have hlen : ((counts.map (fun (c : Nat) => (c : Rat) * 100 / (counts.sum : Rat))).length : Rat)
      = (counts.length : Rat) := by simp
  rw [hlen] at hmain
  have hpct : pct_of_total counts
      = (counts.map (fun (c : Nat) => (c : Rat) * 100 / (counts.sum : Rat))).map (roundTo 1) := by
    unfold pct_of_total
    rw [List.map_map]
    rfl
  rw [hpct]
  exact hmain

theorem claim_C6_witness :
    |(pct_of_total [3, 1, 1]).sum - 100| ≤ (([3, 1, 1] : List Nat).length : Rat) / 20
    ∧ containsSub (get_customer_frequency_analysis_query none none)
        "ROUND(COUNT(*) * 100.0 / SUM(COUNT(*)) OVER(), 1) as percentage_of_customers" = true
    ∧ containsSub (get_installment_analysis_query none none)
        "ROUND(COUNT(*) * 100.0 / SUM(COUNT(*)) OVER(), 1) as percentage_of_orders" = true
    ∧ containsSub (get_review_score_distribution_query none none)
        "ROUND(COUNT(f.order_item_sk) * 100.0 / SUM(COUNT(f.order_item_sk)) OVER(), 1) as percentage_of_items" = true :=
  claim_C6_percentages_sum [3, 1, 1] (by decide)

theorem str_append_assoc (a b c : String) : (a ++ b) ++ c = a ++ (b ++ c) := by
  cases a with
  | mk la =>
    cases b with
    | mk lb =>
      cases c with
      | mk lc =>
        show String.mk ((la ++ lb) ++ lc) = String.mk (la ++ (lb ++ lc))
        rw [List.append_assoc]

theorem startsL_append_ext (p s t : List Char) (h : startsL p s = true) :
    startsL p (s ++ t) = true := by
  induction p generalizing s with
  | nil => rfl
  | cons a as ih =>
    cases s with
    | nil => exact Bool.noConfusion (show false = true from h)
    | cons b bs =>
      have h' : (a == b && startsL as bs) = true := h
      have hab := (Bool.and_eq_true _ _).mp h'
      show (a == b && startsL as (bs ++ t)) = true
      rw [hab.1, ih bs hab.2]
      rfl

theorem hasSubL_append_left (p a b : List Char) (h : hasSubL p a = true) :
    hasSubL p (a ++ b) = true := by
  induction a with
  | nil =>
    cases p with
    | nil => exact hasSubL_nil_pat b
    | cons c cs => exact Bool.noConfusion (show false = true from h)
  | cons c a' ih =>
    have h' : (startsL p (c :: a') || hasSubL p a') = true := h
    show (startsL p (c :: (a' ++ b)) || hasSubL p (a' ++ b)) = true
    rcases (Bool.or_eq_true _ _).mp h' with h1 | h2
    · have hext := startsL_append_ext p (c :: a') b h1
      rw [List.cons_append] at hext
      rw [hext]
      rfl
    · rw [ih h2]
      simp

theorem hasSubL_append_right (p a b : List Char) (h : hasSubL p b = true) :
    hasSubL p (a ++ b) = true := by
  induction a with
  | nil => exact h
  | cons c a' ih =>
    show (startsL p (c :: (a' ++ b)) || hasSubL p (a' ++ b)) = true
    rw [ih]
    simp

theorem containsSub_append_left (a b pat : String) (h : containsSub a pat = true) :
    containsSub (a ++ b) pat = true := by
  unfold containsSub at h ⊢
  rw [strData_append]
  exact hasSubL_append_left _ _ _ h

theorem containsSub_append_right (a b pat : String) (h : containsSub b pat = true) :
    containsSub (a ++ b) pat = true := by
  unfold containsSub at h ⊢
  rw [strData_append]
  exact hasSubL_append_right _ _ _ h

theorem containsSub_self (pat : String) : containsSub pat pat = true := by
  unfold containsSub
  cases hd : pat.data with
  | nil => rfl
  | cons c cs =>
    have h := startsL_self (c :: cs) []
    rw [List.append_nil] at h
    show (startsL (c :: cs) (c :: cs) || hasSubL (c :: cs) cs) = true
    rw [h]
    rfl

/-- C9: for every non-sentinel, non-empty year and region string — with no
validation against the fixed year/region enumerations and no quoting or
escaping — the query functions interpolate the argument verbatim into the
SQL text: the generated query contains the substrings `d.year = <year>` and
`c.customer_region = '<region>'` character for character, for arbitrary
strings including ones containing quote characters. -/
theorem claim_C9_verbatim_interpolation (y r : String)
    (hy1 : y ≠ "") (hy2 : y ≠ "All Years") (hr1 : r ≠ "") (hr2 : r ≠ "All Regions") :
    containsSub (get_monthly_sales_trends_query (some y) (some r)) ("d.year = " ++ y) = true
    ∧ containsSub (get_monthly_sales_trends_query (some y) (some r))
        ("c.customer_region = '" ++ r ++ "'") = true
    ∧ containsSub (get_top_products_categories_query 20 (some y) (some r))
        ("d.year = " ++ y) = true
    ∧ containsSub (get_top_products_categories_query 20 (some y) (some r))
        ("c.customer_region = '" ++ r ++ "'") = true := by
  have hy := isConcrete_some y "All Years" hy1 hy2
  have hr := isConcrete_some r "All Regions" hr1 hr2
  have hyc1 : get_monthly_sales_trends_year_condition (some y) = "AND d.year = " ++ y := by
    unfold get_monthly_sales_trends_year_condition
    rw [hy]
    rfl
  have hrc1 : get_monthly_sales_trends_region_condition (some r)
      = "AND c.customer_region = '" ++ r ++ "'" := by
    unfold get_monthly_sales_trends_region_condition
    rw [hr]
    rfl
  have hyc2 : get_top_products_categories_year_condition (some y) = "AND d.year = " ++ y := by
    unfold get_top_products_categories_year_condition
    rw [hy]
    rfl
  have hrc2 : get_top_products_categories_region_condition (some r)
      = "AND c.customer_region = '" ++ r ++ "'" := by
    unfold get_top_products_categories_region_condition
    rw [hr]
    rfl
  have hsplit1 : ("AND d.year = " : String) = "AND " ++ "d.year = " := by decide
  have hsplit2 : ("AND c.customer_region = '" : String) = "AND " ++ "c.customer_region = '" := by
    decide
  refine ⟨?_, ?_, ?_, ?_⟩
  · simp only [get_monthly_sales_trends_query, hyc1, hrc1, hsplit1, hsplit2, str_append_assoc]
    apply containsSub_append_right
    apply containsSub_append_right
    rw [← str_append_assoc]
    exact containsSub_append_left _ _ _ (containsSub_self _)
  · simp only [get_monthly_sales_trends_query, hyc1, hrc1, hsplit1, hsplit2, str_append_assoc]
    apply containsSub_append_right
    apply containsSub_append_right
    apply containsSub_append_right
    apply containsSub_append_right
    apply containsSub_append_right
    apply containsSub_append_right
    rw [← str_append_assoc, ← str_append_assoc]
    exact containsSub_append_left _ _ _ (containsSub_self _)
  · simp only [get_top_products_categories_query, hyc2, hrc2, hsplit1, hsplit2, str_append_assoc]
    apply containsSub_append_right
    apply containsSub_append_right
    apply containsSub_append_right
    apply containsSub_append_right
    rw [← str_append_assoc]
    exact containsSub_append_left _ _ _ (containsSub_self _)
  · simp only [get_top_products_categories_query, hyc2, hrc2, hsplit1, hsplit2, str_append_assoc]
    apply containsSub_append_right
    apply containsSub_append_right
    apply containsSub_append_right
    apply containsSub_append_right
    apply containsSub_append_right
    apply containsSub_append_right
    apply containsSub_append_right
    apply containsSub_append_right
    rw [← str_append_assoc, ← str_append_assoc]
    exact containsSub_append_left _ _ _ (containsSub_self _)

theorem claim_C9_witness :
    containsSub (get_monthly_sales_trends_query (some "2017") (some "South' OR '1'='1"))
        ("d.year = " ++ "2017") = true
    ∧ containsSub (get_monthly_sales_trends_query (some "2017") (some "South' OR '1'='1"))
        ("c.customer_region = '" ++ "South' OR '1'='1" ++ "'") = true
    ∧ containsSub (get_top_products_categories_query 20 (some "2017") (some "South' OR '1'='1"))
        ("d.year = " ++ "2017") = true
    ∧ containsSub (get_top_products_categories_query 20 (some "2017") (some "South' OR '1'='1"))
        ("c.customer_region = '" ++ "South' OR '1'='1" ++ "'") = true :=
  claim_C9_verbatim_interpolation "2017" "South' OR '1'='1"
    (by decide) (by decide) (by decide) (by decide)

theorem leftJoinReviews_cons (f : FactRow) (fs : List FactRow) (reviews : List ReviewRow) :
    leftJoinReviews (f :: fs) reviews
      = (let ms := reviews.filter (fun r => reviewMatches f r)
         if ms.isEmpty then [(f, none)] else ms.map (fun r => (f, some r)))
        ++ leftJoinReviews fs reviews := rfl

theorem filter_reviewMatches_none (f : FactRow) (reviews : List ReviewRow)
    (h : f.review_key = none) :
    reviews.filter (fun r => reviewMatches f r) = [] := by
  induction reviews with
  | nil => rfl
  | cons r rs ih =>
    have hm : reviewMatches f r = false := by
      unfold reviewMatches
      rw [h]
      rfl
    simp [List.filter_cons, hm, ih]

theorem leftJoinReviews_all_none (facts : List FactRow) (reviews : List ReviewRow)
    (h : ∀ f ∈ facts, f.review_key = none) :
    leftJoinReviews facts reviews = facts.map (fun f => (f, none)) := by
  induction facts with
  | nil => rfl
  | cons f fs ih =>
    rw [leftJoinReviews_cons]
    rw [filter_reviewMatches_none f reviews (h f (List.mem_cons_self f fs))]
    show [(f, none)] ++ leftJoinReviews fs reviews = _
    rw [ih (fun g hg => h g (List.mem_cons_of_mem f hg))]
    rfl

theorem map_review_category_none (l : List FactRow) :
    (l.map (fun f => (f, (none : Option ReviewRow)))).map (fun p => review_category p.2)
      = l.map (fun _ => "No Review") := by
  rw [List.map_map]
  rfl

theorem dedupKeys_filter_const (c : String) (l : List String) (h : ∀ x ∈ l, x = c) :
    (dedupKeys l).filter (fun b => !(b == c)) = [] := by
  induction l with
  | nil => rfl
  | cons a as ih =>
    have ha : a = c := h a (List.mem_cons_self a as)
    show ((a :: (dedupKeys as).filter (fun b => !(b == a))).filter (fun b => !(b == c))) = []
    rw [ha]
    rw [List.filter_cons]
    simp only [beq_self_eq_true, Bool.not_true, Bool.false_eq_true, if_false]
    rw [ih (fun x hx => h x (List.mem_cons_of_mem a hx))]
    rfl

theorem dedupKeys_map_const (c : String) (a : α) (l : List α) :
    dedupKeys ((a :: l).map (fun _ => c)) = [c] := by
  show c :: (dedupKeys (l.map (fun _ => c))).filter (fun b => !(b == c)) = [c]
  rw [dedupKeys_filter_const c (l.map (fun _ => c))
    (fun x hx => by
      rcases List.mem_map.mp hx with ⟨w, _, rfl⟩
      rfl)]

theorem filter_cat_noreview (l : List FactRow) :
    ((l.map (fun f => (f, (none : Option ReviewRow)))).filter
        (fun p => review_category p.2 == "No Review"))
      = l.map (fun f => (f, none)) := by
  induction l with
  | nil => rfl
  | cons f fs ih =>
    show (((f, (none : Option ReviewRow)) :: fs.map (fun f => (f, none))).filter
        (fun p => review_category p.2 == "No Review")) = _
    rw [List.filter_cons,
      if_pos (show (review_category ((f, (none : Option ReviewRow))).2 == "No Review") = true
        from rfl),
      ih]
    rfl

theorem filter_isSome_none (l : List FactRow) :
    ((l.map (fun f => (f, (none : Option ReviewRow)))).filter (fun p => p.2.isSome)) = [] := by
  induction l with
  | nil => rfl
  | cons f fs ih =>
    show (((f, (none : Option ReviewRow)) :: fs.map (fun f => (f, none))).filter
        (fun p => p.2.isSome)) = []
    rw [List.filter_cons]
    simp only [Option.isSome_none, Bool.false_eq_true, if_false]
    exact ih

/-- C5: in the reviews-sales correlation query, fact rows without a matching
review are not dropped but bucketed into the single `No Review` category; on
a fact table where every row has a null review key the result is exactly one
row, labeled `No Review`, with `reviews_count = 0` and `no_review_count`
equal to the number of fact rows. -/
theorem claim_C5_no_review_bucket (facts : List FactRow) (reviews : List ReviewRow)
    (hne : facts ≠ []) (hnull : ∀ f ∈ facts, f.review_key = none) :
    ∃ row : ReviewCorrRow,
      evalReviewsSalesCorrelation facts reviews = [row]
      ∧ row.review_category = "No Review"
      ∧ row.reviews_count = 0
      ∧ row.no_review_count = facts.length := by
  obtain ⟨f0, fs, rfl⟩ : ∃ a l, facts = a :: l := by
    cases facts with
    | nil => exact absurd rfl hne
    | cons a l => exact ⟨a, l, rfl⟩
  have hj : leftJoinReviews (f0 :: fs) reviews = (f0 :: fs).map (fun f => (f, none)) :=
    leftJoinReviews_all_none _ _ hnull
  simp only [evalReviewsSalesCorrelation, hj, map_review_category_none, dedupKeys_map_const]
  refine ⟨_, rfl, rfl, ?_, ?_⟩
  · show ((((f0 :: fs).map (fun f => (f, none))).filter
        (fun p => review_category p.2 == "No Review")).filter (fun p => p.2.isSome)).length = 0
    rw [filter_cat_noreview, filter_isSome_none]
    rfl
  · show ((((f0 :: fs).map (fun f => (f, none))).filter
          (fun p => review_category p.2 == "No Review")).length
        - ((((f0 :: fs).map (fun f => (f, none))).filter
            (fun p => review_category p.2 == "No Review")).filter (fun p => p.2.isSome)).length)
      = (f0 :: fs).length
    rw [filter_cat_noreview, filter_isSome_none]
    simp

theorem claim_C5_witness :
    ∃ row : ReviewCorrRow,
      evalReviewsSalesCorrelation
          [⟨1, 100, 50, none⟩, ⟨2, 100, 30, none⟩, ⟨3, 101, 20, none⟩]
          [⟨7, 5⟩]
        = [row]
      ∧ row.review_category = "No Review"
      ∧ row.reviews_count = 0
      ∧ row.no_review_count
          = ([⟨1, 100, 50, none⟩, ⟨2, 100, 30, none⟩, ⟨3, 101, 20, none⟩] : List FactRow).length :=
  claim_C5_no_review_bucket
    [⟨1, 100, 50, none⟩, ⟨2, 100, 30, none⟩, ⟨3, 101, 20, none⟩]
    [⟨7, 5⟩] (by simp) (by decide)
